import Mathlib

/-!
Shallow embedding of the canvas/generation core of the AgenticUIUX
frontend.  The embedded code is the page component (`src/unnamed/part_000`,
lines 72-169: state shape, `handleDeviceChange`, `handleGenerate`,
`handleScreenUpdate`, `handleAddScreen`) and the canvas coordinate offset
(`src/frontend/components/Canvas.tsx`, lines 26-35 and 89-104).
React state updates (`setScreens(prev => ...)`) are modelled as pure
functions on an explicit application state; the single network call of
`handleGenerate` is modelled by passing its outcome as a parameter.
-/

namespace AgenticUI

/-- Device class selector, from the `"mobile" | "web" | "tablet"` union type
of the page component (part_000 line 73). -/
inductive DeviceType where
  | mobile
  | web
  | tablet
deriving DecidableEq, Repr

/-- One screen entity, mirroring `ScreenData` of Canvas.tsx lines 7-16:
`{ id, name, html: string | null, w, h, x, y, loading }`.  Numeric fields
are world-space coordinates stored as integers per the spec data model. -/
structure ScreenData where
  id : String
  name : String
  html : Option String
  w : Int
  h : Int
  x : Int
  y : Int
  loading : Bool
deriving DecidableEq, Repr

/-- The page component's relevant state: `deviceType`, `screens`, the code
panel content `code`, and the prompt input (part_000 lines 73-93). -/
structure AppState where
  deviceType : DeviceType
  screens : List ScreenData
  code : Option String
  prompt : String
deriving DecidableEq, Repr

/-- Screen width per device type, the values of the `switch` in
`handleDeviceChange` (part_000 lines 105-109) and of the ternary in
`handleAddScreen` (line 155): mobile 375, tablet 768, web 1024. -/
def deviceW : DeviceType → Int
  | .mobile => 375
  | .tablet => 768
  | .web => 1024

/-- Screen height per device type (part_000 lines 105-109 and 156):
mobile 812, tablet 1024, web 768. -/
def deviceH : DeviceType → Int
  | .mobile => 812
  | .tablet => 1024
  | .web => 768

/-- The initial single screen `main` of the page component
(part_000 lines 82-93). -/
def mainScreen : ScreenData :=
  { id := "main", name := "App Screen", html := none,
    w := 1024, h := 768, x := 0, y := 0, loading := false }

/-- Initial application state: deviceType `web`, the single `main` screen,
no code, empty prompt (part_000 lines 73-93). -/
def initialState : AppState :=
  { deviceType := .web, screens := [mainScreen], code := none, prompt := "" }

/-- `handleDeviceChange` (part_000 lines 96-114): stores the new device
type and maps over all screens replacing `w` and `h` with the preset for
the new type.  `x`, `y`, `html` and `loading` are left untouched, and the
update is applied unconditionally (the handler contains no check of any
screen's `loading` flag). -/
def handleDeviceChange (t : DeviceType) (st : AppState) : AppState :=
  { st with
    deviceType := t
    screens := st.screens.map (fun s => { s with w := deviceW t, h := deviceH t }) }

/-- JavaScript `v || null` on a nullable string: `null` and the empty
string are falsy, any other string is returned (used by `handleAddScreen`
line 161, `screens[0]?.html || null`). -/
def jsOrNull : Option String → Option String
  | none => none
  | some s => if s = "" then none else some s

/-- `handleAddScreen` (part_000 lines 154-169): appends one screen whose
size is the device preset and whose position is the diagonal cascade
`x = 50 + length * 20`, `y = 50 + length * 20`; content and loading flag
are inherited from the first screen.  `Date.now()` is modelled by the
extra parameter `now`. -/
def handleAddScreen (now : Nat) (st : AppState) : AppState :=
  let n : Int := st.screens.length
  let newScreen : ScreenData :=
    { id := "screen-" ++ toString now
      name := "Screen " ++ toString (st.screens.length + 1)
      html := jsOrNull (st.screens.head?.bind (fun s => s.html))
      w := deviceW st.deviceType
      h := deviceH st.deviceType
      x := 50 + n * 20
      y := 50 + n * 20
      loading := (st.screens.head?.map (fun s => s.loading)).getD false }
  { st with screens := st.screens ++ [newScreen] }

/-- JavaScript `String.prototype.trim` as used in the guard
`if (!prompt.trim()) return` (part_000 line 117): strips leading and
trailing whitespace.  Implemented structurally over the character list so
that concrete instances evaluate. -/
def jsTrim (s : String) : String :=
  ⟨(((s.data.dropWhile Char.isWhitespace).reverse).dropWhile Char.isWhitespace).reverse⟩

/-- Response of the single `generateComponent` call
(`{ code, html_preview, success }`, per the api contract used at
part_000 lines 126-132). -/
structure GenResponse where
  success : Bool
  code : String
  html_preview : String
deriving DecidableEq, Repr

/-- Outcome of the one network call of `handleGenerate`: a response, or a
thrown transport error (the `catch` branch, part_000 lines 141-147). -/
inductive GenOutcome where
  | ok (r : GenResponse)
  | err
deriving DecidableEq, Repr

/-- `handleGenerate` (part_000 lines 116-148) as a state transformer given
the outcome of its single request.  If the trimmed prompt is empty the
handler returns immediately.  Otherwise it first batch-updates every
screen to `loading := true, html := null` and clears `code`; then, on a
successful response it stores the code and batch-updates every screen to
`html := response.html_preview, loading := false` (inside a 100ms
`setTimeout`, modelled as part of the run's completion); on
`success: false` or a thrown error it batch-updates every screen to
`loading := false`, leaving `html` as the cleared `null`. -/
def handleGenerate (outcome : GenOutcome) (st : AppState) : AppState :=
  if jsTrim st.prompt = "" then st
  else
    let started : AppState :=
      { st with
        screens := st.screens.map (fun s => { s with loading := true, html := none })
        code := none }
    match outcome with
    | .ok r =>
      if r.success then
        { started with
          code := some r.code
          screens := started.screens.map
            (fun s => { s with html := some r.html_preview, loading := false }) }
      else
        { started with
          screens := started.screens.map (fun s => { s with loading := false }) }
    | .err =>
      { started with
        screens := started.screens.map (fun s => { s with loading := false }) }

/-- The list of network requests one run of `handleGenerate` issues, in
order.  From the source (part_000 lines 117 and 126): nothing when the
trimmed prompt is empty, otherwise exactly one `generateComponent(prompt,
deviceType)` call — there is no per-screen request of any kind. -/
def handleGenerateRequests (st : AppState) : List (String × DeviceType) :=
  if jsTrim st.prompt = "" then [] else [(st.prompt, st.deviceType)]

/-- A `Partial<ScreenData>` value as passed to `handleScreenUpdate`:
each field optionally present (the drag/resize callbacks pass subsets of
`{x, y, w, h}`, Canvas.tsx lines 99-102). -/
structure ScreenPatch where
  id : Option String := none
  name : Option String := none
  html : Option (Option String) := none
  w : Option Int := none
  h : Option Int := none
  x : Option Int := none
  y : Option Int := none
  loading : Option Bool := none
deriving DecidableEq, Repr

/-- The JavaScript spread `{ ...s, ...data }`: every field present in the
patch overrides the screen's field. -/
def applyPatch (s : ScreenData) (p : ScreenPatch) : ScreenData :=
  { id := p.id.getD s.id
    name := p.name.getD s.name
    html := p.html.getD s.html
    w := p.w.getD s.w
    h := p.h.getD s.h
    x := p.x.getD s.x
    y := p.y.getD s.y
    loading := p.loading.getD s.loading }

/-- `handleScreenUpdate` (part_000 lines 150-152):
`prev.map (s => s.id === id ? { ...s, ...data } : s)`. -/
def handleScreenUpdate (i : String) (p : ScreenPatch) (l : List ScreenData) :
    List ScreenData :=
  l.map (fun s => if s.id = i then applyPatch s p else s)

/-- The canvas centering offset, Canvas.tsx lines 96-97 (`+ 2500` per
axis at render time). -/
def centerOffset : Int := 2500

/-- World → render conversion (Canvas.tsx lines 96-97: the screen is
rendered at `x + 2500`, `y + 2500`). -/
def toRender (p : Int × Int) : Int × Int :=
  (p.1 + centerOffset, p.2 + centerOffset)

/-- Render → world conversion (Canvas.tsx lines 99-101: drag/resize
reports store `x - 2500`, `y - 2500`). -/
def toWorld (p : Int × Int) : Int × Int :=
  (p.1 - centerOffset, p.2 - centerOffset)

/-- Viewport configuration constants of the `TransformWrapper`
(Canvas.tsx lines 26-35): initial scale 1, initial position
(-2000, -2000), scale range [0.4, 4], wheel step 0.1. -/
structure ViewportConfig where
  initialScale : ℚ
  initialPositionX : ℚ
  initialPositionY : ℚ
  minScale : ℚ
  maxScale : ℚ
  wheelStep : ℚ
deriving DecidableEq, Repr

/-- The concrete configuration passed to the `TransformWrapper` in
Canvas.tsx lines 26-35. -/
def canvasConfig : ViewportConfig :=
  { initialScale := 1
    initialPositionX := -2000
    initialPositionY := -2000
    minScale := 0.4
    maxScale := 4
    wheelStep := 0.1 }

/-- Viewport transform state tracked by the pan/zoom wrapper:
scale and render-space origin. -/
structure ViewportState where
  scale : ℚ
  posX : ℚ
  posY : ℚ
deriving DecidableEq, Repr

/-- Modelled from the spec: scale clamping of the ViewportController
(section 4.5).  The pan/zoom implementation is the external
react-zoom-pan-pinch library and is not under src/; only its
configuration constants are repository code (Canvas.tsx lines 26-35). -/
def clampScale (cfg : ViewportConfig) (s : ℚ) : ℚ :=
  min cfg.maxScale (max cfg.minScale s)

/-- Modelled from the spec: `zoomIn()` multiplies the scale by the fixed
step factor and clamps it to [minScale, maxScale] (section 4.5). -/
def zoomIn (cfg : ViewportConfig) (s : ℚ) : ℚ :=
  clampScale cfg (s * (1 + cfg.wheelStep))

/-- Modelled from the spec: `zoomOut()` divides the scale by the fixed
step factor and clamps it to [minScale, maxScale] (section 4.5). -/
def zoomOut (cfg : ViewportConfig) (s : ℚ) : ℚ :=
  clampScale cfg (s / (1 + cfg.wheelStep))

/-- `resetTransform()` (Canvas.tsx line 65): restores the initial scale
and origin of the configuration. -/
def resetTransform (cfg : ViewportConfig) : ViewportState :=
  { scale := cfg.initialScale, posX := cfg.initialPositionX, posY := cfg.initialPositionY }

/-! Concrete states used as inputs of the theorems below. -/

/-- A registry of two idle screens with a non-blank prompt: the initial
`main` screen plus one screen as `handleAddScreen` places it. -/
def twoScreenState : AppState :=
  { deviceType := .web
    screens := [mainScreen,
      { mainScreen with id := "s2", name := "Screen 2", x := 70, y := 70 }]
    code := none
    prompt := "budget tracker app" }

/-- A one-screen registry whose screen already holds generated content
from an earlier successful run. -/
def contentState : AppState :=
  { deviceType := .web
    screens := [{ mainScreen with html := some "<div>OLD</div>" }]
    code := some "old code"
    prompt := "another prompt" }

/-- The initial state after a device change to mobile (one 375x812
screen at the origin). -/
def mobileState : AppState :=
  handleDeviceChange DeviceType.mobile initialState

/-- A one-screen registry whose screen is in the loading/Generating
state. -/
def loadingState : AppState :=
  { initialState with screens := [{ mainScreen with loading := true }] }

/-- A geometry patch as reported by a drag stop. -/
def patchMove : ScreenPatch :=
  { x := some 5, y := some 6 }

/-- A successful `generateComponent` response. -/
def okResponse : GenResponse :=
  { success := true, code := "const A = 1", html_preview := "<p>A</p>" }

/-! Helper lemmas. -/

/-- Mapping a function that fixes every element of a list over that list
returns the list. -/
theorem map_self_of_fix {α : Type} (f : α → α) :
    ∀ l : List α, (∀ a ∈ l, f a = a) → l.map f = l
  | [], _ => rfl
  | a :: t, h => by
    rw [List.map_cons, h a (List.mem_cons_self a t),
      map_self_of_fix f t (fun b hb => h b (List.mem_cons_of_mem a hb))]

/-- Length preservation of `handleScreenUpdate`. -/
theorem handleScreenUpdate_length (i : String) (p : ScreenPatch)
    (l : List ScreenData) : (handleScreenUpdate i p l).length = l.length :=
  List.length_map _ _

/-- A screen whose id differs from the updated id is unchanged by
`handleScreenUpdate`, at its original position. -/
theorem handleScreenUpdate_other (i : String) (p : ScreenPatch)
    (l : List ScreenData) (k : Nat) (hk : k < l.length)
    (hk2 : k < (handleScreenUpdate i p l).length)
    (hne : (l.get ⟨k, hk⟩).id ≠ i) :
    (handleScreenUpdate i p l).get ⟨k, hk2⟩ = l.get ⟨k, hk⟩ := by
  simp only [handleScreenUpdate, List.get_eq_getElem, List.getElem_map] at *
  rw [if_neg hne]

/-- If no screen carries the updated id, `handleScreenUpdate` is the
identity. -/
theorem handleScreenUpdate_noop (i : String) (p : ScreenPatch)
    (l : List ScreenData) (h : ∀ s ∈ l, s.id ≠ i) :
    handleScreenUpdate i p l = l :=
  map_self_of_fix _ l (fun s hs => if_neg (h s hs))

/-! Claim theorems. -/

/-- C1.  The claim says each generation run issues one request per screen,
strictly sequentially in index order, with the recorded Generating
transitions being [0, ..., n-1].  The code has no per-screen requests at
all: on a registry with 2 screens, `handleGenerate` issues exactly one
request, carrying only the prompt and the device type, so the number of
requests (1) differs from the number of screens (2) and no per-screen
ordering exists. -/
theorem generate_single_request_bug :
    twoScreenState.screens.length = 2 ∧
    handleGenerateRequests twoScreenState =
      [("budget tracker app", DeviceType.web)] ∧
    (handleGenerateRequests twoScreenState).length ≠
      twoScreenState.screens.length := by
  decide

/-- C2.  The claim says the failure of screen k's request leaves screens
k+1..n-1 able to reach Ready with content.  The code makes a single
request for the whole run: when that request fails on a 2-screen
registry, every screen (not only the failed one) ends with `loading =
false` and no content, so no subsequent screen ever reaches Ready. -/
theorem generate_failure_not_isolated_bug :
    ((handleGenerate GenOutcome.err twoScreenState).screens.map
      (fun s => (s.html, s.loading))) = [(none, false), (none, false)] ∧
    (handleGenerateRequests twoScreenState).length = 1 := by
  decide

/-- C3.  The claim says a failed run leaves the registry exactly as it
was before the run (nothing partially applied).  The code clears every
screen's content to null before issuing its request and leaves it
cleared on failure: starting from a registry whose screen holds content
"<div>OLD</div>", a failed run ends with that content erased, so the
post-failure registry differs from the pre-run registry. -/
theorem generate_failure_clears_registry_bug :
    (contentState.screens.map (fun s => s.html)) = [some "<div>OLD</div>"] ∧
    ((handleGenerate GenOutcome.err contentState).screens.map
      (fun s => s.html)) = [none] ∧
    (handleGenerate GenOutcome.err contentState).screens ≠
      contentState.screens := by
  decide

/-- C4.  The claim says the i-th constructed screen gets x = i * (w + g),
y = 0 with mobile preset w = 400, h = 812, g = 30 (so index 1 gets
x = 430, y = 0).  The code's `handleAddScreen` on a mobile registry with
one screen assigns the new screen x = 50 + 1 * 20 = 70, y = 70, and the
mobile width preset is 375, not 400. -/
theorem add_screen_geometry_bug :
    ((handleAddScreen 7 mobileState).screens.map
      (fun s => (s.x, s.y, s.w, s.h))) =
      [(0, 0, 375, 812), (70, 70, 375, 812)] ∧
    (70 : Int) ≠ 1 * (400 + 30) ∧ ((70 : Int) ≠ 0 ∧ (375 : Int) ≠ 400) := by
  decide

/-- C5.  The claim says constructed screens have strictly increasing x
and pairwise disjoint intervals [x, x + w).  The code places an added
screen at x = 50 + 20 * index: on the initial web registry (screen at
[0, 1024)), the added screen occupies [70, 1094), and the two intervals
are not disjoint (neither 1024 ≤ 70 nor 1094 ≤ 0). -/
theorem add_screen_overlap_bug :
    ((handleAddScreen 7 initialState).screens.map
      (fun s => (s.x, s.x + s.w))) = [(0, 1024), (70, 1094)] ∧
    ¬ ((1024 : Int) ≤ 70 ∨ (1094 : Int) ≤ 0) := by
  decide

/-- C6.  The claim says a device change while a screen is Generating
leaves all geometry unchanged, and a device change while idle recomputes
every screen's full geometry by x = index * (w + g), y = 0.  The code's
`handleDeviceChange` is unconditional and only swaps w, h: on a registry
whose only screen is loading, switching to mobile changes its width from
1024 to 375 (geometry changed during generation); and on an idle
two-screen registry, switching to mobile leaves x, y at (0, 0) and
(70, 70) instead of recomputing them (index 1 keeps y = 70 ≠ 0 and
x = 70, not 1 * (w + g)). -/
theorem device_change_geometry_bug :
    ((handleDeviceChange DeviceType.mobile loadingState).screens.map
      (fun s => (s.w, s.h, s.loading))) = [(375, 812, true)] ∧
    ((handleDeviceChange DeviceType.mobile twoScreenState).screens.map
      (fun s => (s.x, s.y))) = [(0, 0), (70, 70)] := by
  decide

/-- C7.  For every world point p, converting to render space (adding the
fixed +2500 centering offset per axis) and converting the reported
render position back (subtracting the same offset) yields exactly p:
`toWorld (toRender p) = p`. -/
theorem toWorld_toRender_roundtrip (p : Int × Int) :
    toWorld (toRender p) = p := by
  cases p
  simp [toWorld, toRender, centerOffset]

/-- C8.  With the configured clamp range [0.4, 4] of Canvas.tsx, every
zoomIn/zoomOut step from a scale inside the range produces a scale
inside the range, and reset restores scale 1 and position
(-2000, -2000). -/
theorem viewport_scale_clamped (s : ℚ)
    (h1 : canvasConfig.minScale ≤ s) (h2 : s ≤ canvasConfig.maxScale) :
    (canvasConfig.minScale ≤ zoomIn canvasConfig s ∧
      zoomIn canvasConfig s ≤ canvasConfig.maxScale) ∧
    (canvasConfig.minScale ≤ zoomOut canvasConfig s ∧
      zoomOut canvasConfig s ≤ canvasConfig.maxScale) ∧
    resetTransform canvasConfig =
      { scale := 1, posX := -2000, posY := -2000 } := by
  have hmm : canvasConfig.minScale ≤ canvasConfig.maxScale := by
    norm_num [canvasConfig]
  unfold zoomIn zoomOut clampScale
  refine ⟨⟨?_, ?_⟩, ⟨?_, ?_⟩, ?_⟩
  · exact le_min hmm (le_max_left _ _)
  · exact min_le_left _ _
  · exact le_min hmm (le_max_left _ _)
  · exact min_le_left _ _
  · rfl

/-- Witness for C8: the theorem applied at the concrete in-range scale 1. -/
theorem viewport_scale_clamped_witness :
    canvasConfig.minScale ≤ (1 : ℚ) ∧ ((1 : ℚ) ≤ canvasConfig.maxScale ∧
    ((canvasConfig.minScale ≤ zoomIn canvasConfig 1 ∧
      zoomIn canvasConfig 1 ≤ canvasConfig.maxScale) ∧
    (canvasConfig.minScale ≤ zoomOut canvasConfig 1 ∧
      zoomOut canvasConfig 1 ≤ canvasConfig.maxScale) ∧
    resetTransform canvasConfig =
      { scale := 1, posX := -2000, posY := -2000 })) :=
  ⟨by norm_num [canvasConfig], by norm_num [canvasConfig],
    viewport_scale_clamped 1 (by norm_num [canvasConfig])
      (by norm_num [canvasConfig])⟩

/-- C9.  `handleScreenUpdate` preserves the list length, leaves every
screen whose id differs from the updated id unchanged at its position,
and is a no-op (not an error) when no screen carries the id. -/
theorem screen_update_frame (i : String) (p : ScreenPatch)
    (l : List ScreenData) :
    (handleScreenUpdate i p l).length = l.length ∧
    (∀ (k : Nat) (hk : k < l.length)
      (hk2 : k < (handleScreenUpdate i p l).length),
      (l.get ⟨k, hk⟩).id ≠ i →
      (handleScreenUpdate i p l).get ⟨k, hk2⟩ = l.get ⟨k, hk⟩) ∧
    ((∀ s ∈ l, s.id ≠ i) → handleScreenUpdate i p l = l) :=
  ⟨handleScreenUpdate_length i p l,
    fun k hk hk2 hne => handleScreenUpdate_other i p l k hk hk2 hne,
    fun h => handleScreenUpdate_noop i p l h⟩

/-- Witness for C9: the theorem applied to a concrete one-screen list and
an id carried by no screen; the update is a no-op. -/
theorem screen_update_frame_witness :
    handleScreenUpdate "ghost" patchMove [mainScreen] = [mainScreen] :=
  (screen_update_frame "ghost" patchMove [mainScreen]).2.2 (by decide)

/-- C10.  Whenever a generation run completes successfully, every screen
in the registry carries the identical content — the single response's
html_preview — with loading = false, so no run produces two screens with
different generated content. -/
theorem generate_success_uniform_content (st : AppState) (r : GenResponse)
    (hp : jsTrim st.prompt ≠ "") (hs : r.success = true) :
    ∀ s ∈ (handleGenerate (GenOutcome.ok r) st).screens,
      s.html = some r.html_preview ∧ s.loading = false := by
  intro s hsmem
  simp only [handleGenerate, if_neg hp, hs, if_true, List.mem_map] at hsmem
  obtain ⟨a, ha, rfl⟩ := hsmem
  exact ⟨rfl, rfl⟩

/-- Witness for C10: the theorem applied to the concrete two-screen state
and a concrete successful response. -/
theorem generate_success_uniform_content_witness :
    jsTrim twoScreenState.prompt ≠ "" ∧ (okResponse.success = true ∧
    ∀ s ∈ (handleGenerate (GenOutcome.ok okResponse) twoScreenState).screens,
      s.html = some okResponse.html_preview ∧ s.loading = false) :=
  ⟨by decide, rfl,
    generate_success_uniform_content twoScreenState okResponse (by decide) rfl⟩

end AgenticUI
